import Mathlib

/-!
Verification of the LipidFinder web pipeline orchestration core
(`webapp/app.py`): the persistent run-state store (`read_state` /
`update_state`), per-stage input auto-resolution, the full-pipeline
orchestrator (`run_pipeline_full`) with its failure short-circuiting,
parameter preflight, MSSearch parameter overlay, and the state keys
recorded by the standalone stage routes (`xcms`, `run_peakfilter`,
`run_amalgamator`, `run_mssearch`).

The Python routes are embedded shallowly: all ambient effects a route
reads (file existence, the parsed `state.json` document, the parsed
`mssearch.json` document, subprocess exit codes, Rscript availability)
are packaged in an `Env`; each route becomes a pure function from `Env`
and its form fields to an outcome value, and file/state writes performed
by a route are returned explicitly.
-/

namespace LFW

/-! ### Character/string helpers (structural, so that the kernel can
evaluate them; Lean's own `String.toLower`/`splitOn` use well-founded
recursion) -/

/-- Lower-case a character list (models Python `str.lower()` for ASCII). -/
def lowerL (l : List Char) : List Char := l.map Char.toLower

/-- Lower-case a string. -/
def strLower (s : String) : String := ⟨lowerL s.data⟩

/-- `isPrefixL needle l`: is `needle` a prefix of `l`? -/
def isPrefixL : List Char → List Char → Bool
  | [], _ => true
  | _ :: _, [] => false
  | a :: as, b :: bs => a == b && isPrefixL as bs

/-- `isSubL needle hay`: does `needle` occur contiguously in `hay`? -/
def isSubL (needle : List Char) : List Char → Bool
  | [] => needle.isEmpty
  | c :: rest => isPrefixL needle (c :: rest) || isSubL needle rest

/-- Models Python `sub in s` (case-sensitive substring test). -/
def strContains (s sub : String) : Bool := isSubL sub.data s.data

/-- The part of a character list after the last `'/'`. -/
def lastCompAux (cur : List Char) : List Char → List Char
  | [] => cur
  | c :: rest => if c == '/' then lastCompAux [] rest else lastCompAux (cur ++ [c]) rest

/-- Models `Path(p).name` for paths with `/` separators and no trailing
separator (all paths handled by the claims have this shape). -/
def pathName (s : String) : String := ⟨lastCompAux [] s.data⟩

/-- Models `os.path.join a b` for the path shapes used by the app
(plain `a` or `a` with a trailing separator). -/
def joinPath (a b : String) : String :=
  if a = "" then b
  else if a.data.getLastD ' ' == '/' then a ++ b
  else a ++ "/" ++ b

/-! ### Python truthiness / `or` helpers -/

/-- Python `o or d` where `o` is `None`-or-string and `d` a string. -/
def pyOr (o : Option String) (d : String) : String :=
  match o with
  | some s => if s = "" then d else s
  | none => d

/-- Python `a or b` where both operands are `None`-or-string. -/
def pyOrO (a b : Option String) : Option String :=
  match a with
  | some s => if s = "" then b else some s
  | none => b

/-- Python `s or o` with a string on the left. -/
def pyOrSO (s : String) (o : Option String) : Option String :=
  if s = "" then o else some s

/-- Truthiness filter: `some s` for a non-empty string, else `none`. -/
def truthyS : Option String → Option String
  | some s => if s = "" then none else some s
  | none => none

/-! ### Python dict operations on association lists (insertion order
preserved, as in Python dicts and `json.dump`) -/

/-- Python `d.get(k)`: the value stored under the first occurrence of
`k`. -/
def getKey {α : Type} : List (String × α) → String → Option α
  | [], _ => none
  | hd :: tl, k => if hd.1 = k then some hd.2 else getKey tl k

/-- Python `d[k] = v`: replace the value in place if the key is present,
otherwise append the pair at the end. -/
def dictInsert {α : Type} : List (String × α) → String → α → List (String × α)
  | [], k, v => [(k, v)]
  | hd :: rest, k, v =>
    if hd.1 = k then (k, v) :: rest else hd :: dictInsert rest k v

/-- Python `d.setdefault(k, v)` (the dict after the call). -/
def setdefault {α : Type} (m : List (String × α)) (k : String) (v : α) :
    List (String × α) :=
  if (getKey m k).isSome then m else m ++ [(k, v)]

/-! ### Run State Store (app.py lines 35-53) -/

/-- The parsed `state.json` document: a flat string→string map. -/
abbrev StateDoc := List (String × String)

/-- The on-disk state file: `none` = file missing (`open` raises);
`some none` = file present but empty or unparseable (`json.load` raises);
`some (some m)` = file parses to the map `m`. -/
abbrev StateDisk := Option (Option StateDoc)

/-- `read_state` (app.py 35-40): any open/parse failure is caught by the
bare `except` and yields `{}`. The embedding is a total function, so no
exception can reach the caller. -/
def read_state : StateDisk → StateDoc
  | some (some m) => m
  | some none => []
  | none => []

/-- The merge loop of `update_state` (app.py 45-47): only non-`None`
values are assigned into the map read from disk. -/
def applyUpdates (m : StateDoc) (kvs : List (String × Option String)) : StateDoc :=
  kvs.foldl (fun acc kv =>
    match kv.2 with
    | some v => dictInsert acc kv.1 v
    | none => acc) m

/-- `update_state` (app.py 43-53): read the current document, merge the
non-null entries, and write the whole map back. This models the
successful-write branch; a write failure is swallowed by the source and
leaves the disk unchanged. -/
def update_state (d : StateDisk) (kvs : List (String × Option String)) : StateDisk :=
  some (some (applyUpdates (read_state d) kvs))

/-! ### Parameter documents and the MSSearch overlay -/

/-- JSON scalar values occurring in the parameter documents the claims
reason about. -/
inductive PVal
  | bool (b : Bool)
  | str (s : String)
  | num (n : Int)
deriving DecidableEq, Repr

/-- A parsed stage-parameter document. -/
abbrev ParamsDoc := List (String × PVal)

/-- The transient MSSearch parameter overlay built by `run_pipeline_full`
(app.py 495-497): `setdefault("plotCategories", True)`,
`setdefault("summary", True)`, then `figFormat` forced to `"png"`. -/
def msOverlay (doc : ParamsDoc) : ParamsDoc :=
  dictInsert
    (setdefault (setdefault doc "plotCategories" (PVal.bool true))
      "summary" (PVal.bool true))
    "figFormat" (PVal.str "png")

/-! ### Polarity inference -/

inductive Polarity
  | Negative
  | Positive
  | Unknown
deriving DecidableEq, Repr

/-- Polarity inference by case-insensitive substring match, with the
negative-matching substrings tested before the positive ones. This is the
conditional chain repeated at app.py 188-191, 300-306 and 416-422:
`if "neg" in lower or "negative" in lower: ... elif "pos" in lower or
"positive" in lower: ... else: ...`. -/
def inferPolarity (filename : String) : Polarity :=
  let lower := strLower filename
  if strContains lower "neg" || strContains lower "negative" then .Negative
  else if strContains lower "pos" || strContains lower "positive" then .Positive
  else .Unknown

/-! ### Environment and form inputs -/

/-- The ambient facts a route execution reads: file existence
(`os.path.isfile` / `Path.exists`), the state file, the parsed
`mssearch.json` (`none` = unreadable, the source then uses `{}`),
subprocess exit codes (per module name and argument list), and whether
the Rscript executable can be launched. -/
structure Env where
  isfile : String → Bool
  stateDisk : StateDisk
  msParamsDisk : Option ParamsDoc
  exit : String → List String → Int
  rscriptFound : Bool

/-- Saved parameter file paths (relative to the project root). -/
def pfParamsPath : String := "webapp/config/peakfilter.json"

def amalParamsPath : String := "webapp/config/amalgamator.json"

def msParamsPath : String := "webapp/config/mssearch.json"

/-- The overlay file written by the full pipeline (app.py 498). -/
def tmpMsParamsPath : String := "webapp/config/mssearch_web_pipeline.json"

/-- The run-state document path (app.py 14). -/
def statePath : String := "webapp/config/state.json"

/-- One entry of the execution log (`log_entry`, app.py 442-449): the
stage title, the invoked module with its argument list, and the success
flag `returncode == 0`. stdout/stderr are opaque and not modelled. -/
structure LogEntry where
  title : String
  modName : String
  args : List String
  success : Bool
deriving DecidableEq, Repr

/-- One subprocess invocation (`run_python_module`, app.py 237-246)
together with its log entry. -/
def stageEntry (env : Env) (title modName : String) (args : List String) : LogEntry :=
  { title := title, modName := modName, args := args,
    success := decide (env.exit modName args = 0) }

/-! ### Standalone stage routes -/

/-- Form fields of the `/xcms` POST (app.py 157-159). -/
structure XcmsForm where
  rscript_path : String
  mzxml_dir : String
  report_name : String

inductive XcmsOutcome
  | noDir
  | launchError
  | ran (success : Bool)
deriving DecidableEq, Repr

/-- The expected XCMS result path `<mzxml_dir>/<report_name>.csv`
(app.py 181). -/
def xcmsRp (f : XcmsForm) : String := joinPath f.mzxml_dir (f.report_name ++ ".csv")

/-- The state entries recorded by a successful XCMS run (app.py 185-192):
the generic key always, plus a polarity-specific key when the full result
path (note: the whole lowered path `rp.lower()`, not just the basename)
matches a polarity substring. -/
def xcmsKeys (rp : String) : List (String × Option String) :=
  [("xcms_last_csv", some rp)]
    ++ (match inferPolarity rp with
        | .Negative => [("xcms_last_negative_csv", some rp)]
        | .Positive => [("xcms_last_positive_csv", some rp)]
        | .Unknown => [])

/-- The `xcms` route (app.py 155-203): success is judged by existence of
the result file, not by the subprocess exit code; only a successful run
records state. Returns the outcome and the state file after the request. -/
def xcmsRoute (env : Env) (f : XcmsForm) : XcmsOutcome × StateDisk :=
  if f.mzxml_dir = "" then (.noDir, env.stateDisk)
  else if ¬ env.rscriptFound then (.launchError, env.stateDisk)
  else if env.isfile (xcmsRp f) then
    (.ran true, update_state env.stateDisk (xcmsKeys (xcmsRp f)))
  else (.ran false, env.stateDisk)

/-- Form fields of `/run/peakfilter` (app.py 262-266). -/
structure PFForm where
  input_path : String
  output_dir : String
  params_path : String
  verbose : Bool
  timestamp : Bool

inductive PFOutcome
  | noInput
  | noParams
  | ran (input : String) (success : Bool)
deriving DecidableEq, Repr

/-- The candidate walk of the PeakFilter resolver (app.py 275-278): first
candidate that is truthy and refers to an existing file. -/
def firstGood (isfile : String → Bool) : List (Option String) → Option String
  | [] => none
  | c :: rest =>
    match c with
    | some s => if s ≠ "" ∧ isfile s then some s else firstGood isfile rest
    | none => firstGood isfile rest

/-- The state write performed at the end of a PeakFilter run
(app.py 297-308): executed whenever an output directory was supplied,
with the key chosen by the polarity of the input file's basename. Note
the source performs this write regardless of the subprocess exit code. -/
def pfRecord (env : Env) (output_dir input : String) : StateDisk :=
  if output_dir ≠ "" then
    match inferPolarity (pathName input) with
    | .Negative =>
      update_state env.stateDisk
        [("peakfilter_last_negative_summary",
          some (joinPath output_dir "peakfilter_negative_summary.csv"))]
    | .Positive =>
      update_state env.stateDisk
        [("peakfilter_last_positive_summary",
          some (joinPath output_dir "peakfilter_positive_summary.csv"))]
    | .Unknown =>
      update_state env.stateDisk
        [("peakfilter_last_summary",
          some (joinPath output_dir "peakfilter_summary.csv"))]
  else env.stateDisk

/-- PeakFilter input resolution (app.py 267-281): an explicit input is
used verbatim; otherwise the first existing candidate among the three
XCMS state keys, in order. -/
def pfResolve (env : Env) (f : PFForm) : Option String :=
  if f.input_path ≠ "" then some f.input_path
  else
    firstGood env.isfile
      [getKey (read_state env.stateDisk) "xcms_last_negative_csv",
       getKey (read_state env.stateDisk) "xcms_last_positive_csv",
       getKey (read_state env.stateDisk) "xcms_last_csv"]

/-- The PeakFilter argument vector (app.py 285-291). -/
def pfArgsOf (f : PFForm) (input : String) : List String :=
  ["-i", input, "-p", f.params_path]
    ++ (if f.output_dir ≠ "" then ["-o", f.output_dir] else [])
    ++ (if f.verbose then ["--verbose"] else [])
    ++ (if f.timestamp then ["--timestamp"] else [])

/-- The `/run/peakfilter` route (app.py 260-317): resolve the input,
check the parameter file, spawn, and record the summary hint. Returns
the outcome and the state file after the request. -/
def pfRoute (env : Env) (f : PFForm) : PFOutcome × StateDisk :=
  match pfResolve env f with
  | none => (.noInput, env.stateDisk)
  | some input =>
    if ¬ env.isfile f.params_path then (.noParams, env.stateDisk)
    else
      (.ran input (decide (env.exit "LipidFinder.run_peakfilter" (pfArgsOf f input) = 0)),
       pfRecord env f.output_dir input)

/-- Form fields of `/run/amalgamator` (app.py 322-325). -/
structure AmalForm where
  neg_file : String
  pos_file : String
  output_dir : String
  params_path : String

inductive AmalOutcome
  | missingInputs
  | noParams
  | ran (neg pos : String) (success : Bool)
deriving DecidableEq, Repr

/-- Amalgamator input resolution (app.py 326-330): explicit inputs are
used when both are supplied; otherwise missing ones are filled from the
polarity summary state keys by truthiness alone (no file-existence
check). -/
def amalPair (env : Env) (f : AmalForm) : Option String × Option String :=
  if f.neg_file ≠ "" ∧ f.pos_file ≠ "" then (some f.neg_file, some f.pos_file)
  else
    (pyOrSO f.neg_file (getKey (read_state env.stateDisk) "peakfilter_last_negative_summary"),
     pyOrSO f.pos_file (getKey (read_state env.stateDisk) "peakfilter_last_positive_summary"))

/-- The Amalgamator argument vector (app.py 337-339). -/
def amalArgsOf (f : AmalForm) (n p : String) : List String :=
  ["-neg", n, "-pos", p, "-p", f.params_path]
    ++ (if f.output_dir ≠ "" then ["-o", f.output_dir] else [])

/-- The `/run/amalgamator` route (app.py 320-354): both polarity inputs
are required. The state key `amalgamator_last_csv` is recorded only on
`success and output_dir`. -/

def amalRoute (env : Env) (f : AmalForm) : AmalOutcome × StateDisk :=
  match truthyS (amalPair env f).1, truthyS (amalPair env f).2 with
  | some n, some p =>
    if ¬ env.isfile f.params_path then (.noParams, env.stateDisk)
    else
      (.ran n p (decide (env.exit "LipidFinder.run_amalgamator" (amalArgsOf f n p) = 0)),
       if decide (env.exit "LipidFinder.run_amalgamator" (amalArgsOf f n p) = 0)
           ∧ f.output_dir ≠ "" then
         update_state env.stateDisk
           [("amalgamator_last_csv", some (joinPath f.output_dir "amalgamated.csv"))]
       else env.stateDisk)
  | _, _ => (.missingInputs, env.stateDisk)

/-- Form fields of `/run/mssearch` (app.py 359-361). -/
structure MSForm where
  input_file : String
  output_dir : String
  params_path : String

inductive MSOutcome
  | noInput
  | noParams
  | ran (input : String) (success : Bool)
deriving DecidableEq, Repr

/-- MSSearch input resolution (app.py 362-365): with no explicit input,
the Python `or`-chain over four state keys — the first truthy value
wins, with no check that the referenced file exists. -/
def msResolve (env : Env) (f : MSForm) : Option String :=
  if f.input_file ≠ "" then some f.input_file
  else
    pyOrO (pyOrO (pyOrO (getKey (read_state env.stateDisk) "amalgamator_last_csv")
        (getKey (read_state env.stateDisk) "peakfilter_last_negative_summary"))
      (getKey (read_state env.stateDisk) "peakfilter_last_positive_summary"))
      (getKey (read_state env.stateDisk) "peakfilter_last_summary")

/-- The MSSearch argument vector (app.py 372-374). -/
def msArgsOf (f : MSForm) (input : String) : List String :=
  ["-i", input, "-p", f.params_path]
    ++ (if f.output_dir ≠ "" then ["-o", f.output_dir] else [])

/-- The `/run/mssearch` route (app.py 357-387): resolve the input, check
the parameter file, spawn. The route never touches the state store. -/
def msRoute (env : Env) (f : MSForm) : MSOutcome :=
  match msResolve env f with
  | none => .noInput
  | some input =>
    if input = "" then .noInput
    else if ¬ env.isfile f.params_path then .noParams
    else .ran input (decide (env.exit "LipidFinder.run_mssearch" (msArgsOf f input) = 0))

/-! ### The full pipeline (`run_pipeline_full`, app.py 390-535) -/

/-- Form fields of `/run/pipeline_full` (app.py 393-401). -/
structure PipeForm where
  neg_input : String
  pos_input : String
  output_dir : String
  verbose : Bool
  timestamp : Bool

/-- Result of the full-pipeline route. `ran success log writes` carries
the execution log and every file write the route performed (the source
writes only the MSSearch overlay file; it never calls `update_state`). -/
inductive Outcome
  | configError
  | noInputs
  | missingParams (stages : List String)
  | ran (success : Bool) (log : List LogEntry) (writes : List (String × ParamsDoc))
deriving DecidableEq, Repr

/-- Number of stage subprocesses spawned by a full-pipeline outcome. Each
spawn in `run_pipeline_full` is immediately appended to the log, so the
log length counts the spawned processes; abort outcomes spawn none. -/
def spawnCount : Outcome → Nat
  | .ran _ log _ => log.length
  | _ => 0

/-- Top-level input auto-resolution (app.py 406-425), entered when
neither polarity input was supplied: prefer the polarity-specific XCMS
keys (taken by truthiness, no existence check); only when both are still
empty consult the generic `xcms_last_csv`, which is existence-checked and
assigned to the branch named by its basename's polarity — `Unknown`
falls into the negative slot. -/
def resolveTopInputs (st : StateDoc) (isfile : String → Bool) : String × String :=
  let neg := pyOr (getKey st "xcms_last_negative_csv") ""
  let pos := pyOr (getKey st "xcms_last_positive_csv") ""
  if neg = "" ∧ pos = "" then
    match getKey st "xcms_last_csv" with
    | some g =>
      if g ≠ "" ∧ isfile g then
        match inferPolarity (pathName g) with
        | .Negative => (g, pos)
        | .Positive => (neg, g)
        | .Unknown => (g, pos)
      else (neg, pos)
    | none => (neg, pos)
  else (neg, pos)

/-- The parameter preflight list (app.py 427-436): PeakFilter is checked
when any polarity input exists; Amalgamator and MSSearch are always
checked. -/
def pipelineMissing (env : Env) (neg pos : String) : List String :=
  (if (neg ≠ "" ∨ pos ≠ "") ∧ env.isfile pfParamsPath = false then ["PeakFilter"] else [])
    ++ (if env.isfile amalParamsPath = false then ["Amalgamator"] else [])
    ++ (if env.isfile msParamsPath = false then ["MSSearch"] else [])

/-- The verbose/timestamp flags appended to PeakFilter invocations
(app.py 456-459). -/
def pfFlags (f : PipeForm) : List String :=
  (if f.verbose then ["--verbose"] else []) ++ (if f.timestamp then ["--timestamp"] else [])

/-- The negative-branch PeakFilter invocation (app.py 455-461). -/
def negEntry (env : Env) (f : PipeForm) (neg : String) : LogEntry :=
  stageEntry env "PeakFilter (negative)" "LipidFinder.run_peakfilter"
    (["-i", neg, "-p", pfParamsPath, "-o", f.output_dir] ++ pfFlags f)

/-- The positive-branch PeakFilter invocation (app.py 466-472). -/
def posEntry (env : Env) (f : PipeForm) (pos : String) : LogEntry :=
  stageEntry env "PeakFilter (positive)" "LipidFinder.run_peakfilter"
    (["-i", pos, "-p", pfParamsPath, "-o", f.output_dir] ++ pfFlags f)

/-- The Amalgamator invocation (app.py 480-482). -/
def amalEntry (env : Env) (f : PipeForm) (ns ps : String) : LogEntry :=
  stageEntry env "Amalgamator" "LipidFinder.run_amalgamator"
    ["-neg", ns, "-pos", ps, "-p", amalParamsPath, "-o", f.output_dir]

/-- `ms_input = amalgamated_csv or neg_summary or pos_summary`
(app.py 488). The chain never yields `None` on a reachable path, so the
default is immaterial. -/
def msInputOf (negS posS amal : Option String) : String :=
  (pyOrO (pyOrO amal negS) posS).getD ""

/-- The MSSearch invocation of the pipeline (app.py 502-504), run on the
overlay parameter file. -/
def msEntry (env : Env) (f : PipeForm) (negS posS amal : Option String) : LogEntry :=
  stageEntry env "MSSearch" "LipidFinder.run_mssearch"
    ["-i", msInputOf negS posS amal, "-p", tmpMsParamsPath, "-o", f.output_dir]

/-- The single file write of the pipeline route: the MSSearch overlay
(app.py 498-500). -/
def pipelineWrites (env : Env) : List (String × ParamsDoc) :=
  [(tmpMsParamsPath, msOverlay (env.msParamsDisk.getD []))]

/-- Stage 3 of the pipeline (app.py 487-535): write the overlay, run
MSSearch, and report overall success as this last stage's success (every
earlier stage already succeeded to reach this point). -/
def pipelineSearch (env : Env) (f : PipeForm) (logs : List LogEntry)
    (negS posS amal : Option String) : Outcome :=
  .ran (msEntry env f negS posS amal).success
    (logs ++ [msEntry env f negS posS amal]) (pipelineWrites env)

/-- Stage 2 of the pipeline (app.py 477-485): amalgamate only when both
summaries were produced in this run; on failure halt with the log so far. -/
def pipelineAmal (env : Env) (f : PipeForm) (logs : List LogEntry)
    (negS posS : Option String) : Outcome :=
  match negS, posS with
  | some ns, some ps =>
    if (amalEntry env f ns ps).success then
      pipelineSearch env f (logs ++ [amalEntry env f ns ps]) negS posS
        (some (joinPath f.output_dir "amalgamated.csv"))
    else .ran false (logs ++ [amalEntry env f ns ps]) []
  | _, _ => pipelineSearch env f logs negS posS none

/-- Positive-branch filter stage (app.py 465-475). -/
def pipelinePos (env : Env) (f : PipeForm) (pos : String) (logs : List LogEntry)
    (negS : Option String) : Outcome :=
  if pos = "" then pipelineAmal env f logs negS none
  else if (posEntry env f pos).success then
    pipelineAmal env f (logs ++ [posEntry env f pos]) negS
      (some (joinPath f.output_dir "peakfilter_positive_summary.csv"))
  else .ran false (logs ++ [posEntry env f pos]) []

/-- Negative-branch filter stage (app.py 454-464). -/
def pipelineNeg (env : Env) (f : PipeForm) (neg pos : String) : Outcome :=
  if neg = "" then pipelinePos env f pos [] none
  else if (negEntry env f neg).success then
    pipelinePos env f pos [negEntry env f neg]
      (some (joinPath f.output_dir "peakfilter_negative_summary.csv"))
  else .ran false [negEntry env f neg] []

/-- The pipeline after input resolution: parameter preflight
(app.py 426-439) then the stage chain. -/
def pipelineAfterResolve (env : Env) (f : PipeForm) (neg pos : String) : Outcome :=
  if pipelineMissing env neg pos = [] then pipelineNeg env f neg pos
  else .missingParams (pipelineMissing env neg pos)

/-- `/run/pipeline_full` (app.py 390-535). The route performs no
`update_state` call anywhere; its only file write is the overlay file
carried in the `ran` outcome. -/
def run_pipeline_full (env : Env) (f : PipeForm) : Outcome :=
  if f.output_dir = "" then .configError
  else if f.neg_input = "" ∧ f.pos_input = "" then
    match resolveTopInputs (read_state env.stateDisk) env.isfile with
    | (n, p) =>
      if n = "" ∧ p = "" then .noInputs
      else pipelineAfterResolve env f n p
  else pipelineAfterResolve env f f.neg_input f.pos_input

/-- The log/flag invariant of a full-pipeline outcome: whenever the
route returns an execution log, the overall success flag is the
conjunction of the attempted stages' successes, every entry except
possibly the last succeeded (the first failure is terminal and last),
and at least one stage was attempted. -/
def ranInvariant (o : Outcome) : Prop :=
  ∀ s log w, o = .ran s log w →
    s = log.all (fun e => e.success)
      ∧ log.dropLast.all (fun e => e.success) = true
      ∧ log ≠ []

/-- The file-write invariant of a full-pipeline outcome: the route
either wrote nothing (it halted before the search stage) or wrote
exactly the MSSearch overlay file. -/
def writesInvariant (env : Env) (o : Outcome) : Prop :=
  ∀ s log w, o = .ran s log w → w = [] ∨ w = pipelineWrites env

/-! ### Concrete fixtures used by witnesses and counterexamples -/

/-- An environment where every file exists, every subprocess succeeds,
and there is no run-state document yet (end-to-end scenario A). -/
def envA : Env :=
  { isfile := fun _ => true, stateDisk := none, msParamsDisk := none,
    exit := fun _ _ => 0, rscriptFound := true }

/-- Scenario A's form: both polarity inputs explicit, output to `/out`. -/
def formA : PipeForm :=
  { neg_input := "/data/neg.csv", pos_input := "/data/pos.csv",
    output_dir := "/out", verbose := false, timestamp := false }

/-- The expected four-entry log of scenario A. -/
def logA : List LogEntry :=
  [{ title := "PeakFilter (negative)", modName := "LipidFinder.run_peakfilter",
     args := ["-i", "/data/neg.csv", "-p", pfParamsPath, "-o", "/out"], success := true },
   { title := "PeakFilter (positive)", modName := "LipidFinder.run_peakfilter",
     args := ["-i", "/data/pos.csv", "-p", pfParamsPath, "-o", "/out"], success := true },
   { title := "Amalgamator", modName := "LipidFinder.run_amalgamator",
     args := ["-neg", "/out/peakfilter_negative_summary.csv",
              "-pos", "/out/peakfilter_positive_summary.csv",
              "-p", amalParamsPath, "-o", "/out"], success := true },
   { title := "MSSearch", modName := "LipidFinder.run_mssearch",
     args := ["-i", "/out/amalgamated.csv", "-p", tmpMsParamsPath, "-o", "/out"],
     success := true }]

/-- Environment where every subprocess fails with exit code 1. -/
def envFail : Env :=
  { isfile := fun _ => true, stateDisk := some (some []), msParamsDisk := none,
    exit := fun _ _ => 1, rscriptFound := true }

/-- Standalone PeakFilter form with a negative-named input and an output
directory. -/
def formPF : PFForm :=
  { input_path := "neg.csv", output_dir := "/out", params_path := "p.json",
    verbose := false, timestamp := false }

/-- The same PeakFilter form with an empty output-directory field. -/
def formPF0 : PFForm :=
  { input_path := "neg.csv", output_dir := "", params_path := "p.json",
    verbose := false, timestamp := false }

/-- State store for the search-resolution counterexample: the first
candidate points at a deleted file, the second at an existing one. -/
def env2 : Env :=
  { isfile := fun s => s == "/have.csv" || s == "/cfg/ms.json",
    stateDisk := some (some [("amalgamator_last_csv", "/gone.csv"),
                             ("peakfilter_last_negative_summary", "/have.csv")]),
    msParamsDisk := none, exit := fun _ _ => 0, rscriptFound := true }

/-- MSSearch form with no explicit input. -/
def form2 : MSForm :=
  { input_file := "", output_dir := "", params_path := "/cfg/ms.json" }

/-- Environment whose saved `mssearch.json` explicitly disables category
plotting. -/
def env8 : Env :=
  { isfile := fun _ => true, stateDisk := none,
    msParamsDisk := some [("plotCategories", PVal.bool false)],
    exit := fun _ _ => 0, rscriptFound := true }

/-- Standalone Amalgamator form with explicit inputs and an output
directory. -/
def formAm : AmalForm :=
  { neg_file := "/n.csv", pos_file := "/p.csv", output_dir := "/out",
    params_path := "a.json" }

/-- State store holding only a polarity-indeterminate XCMS output. -/
def envU : Env :=
  { isfile := fun _ => true,
    stateDisk := some (some [("xcms_last_csv", "/d/sample.csv")]),
    msParamsDisk := none, exit := fun _ _ => 0, rscriptFound := true }

/-- Pipeline form with neither polarity input supplied. -/
def formU : PipeForm :=
  { neg_input := "", pos_input := "", output_dir := "/out",
    verbose := false, timestamp := false }

/-- Pipeline form with no output directory. -/
def formE : PipeForm :=
  { neg_input := "/data/neg.csv", pos_input := "", output_dir := "",
    verbose := false, timestamp := false }

/-- Environment where only the Amalgamator parameter file is missing. -/
def envMiss : Env :=
  { isfile := fun s => s == pfParamsPath || s == msParamsPath,
    stateDisk := none, msParamsDisk := none,
    exit := fun _ _ => 0, rscriptFound := true }

/-! ### Association-list lemmas -/

theorem getKey_dictInsert_self {α : Type} (m : List (String × α)) (k : String) (v : α) :
    getKey (dictInsert m k v) k = some v := by
  induction m with
  | nil => simp [dictInsert, getKey]
  | cons hd tl ih =>
    by_cases h : hd.1 = k
    · simp [dictInsert, h, getKey]
    · simp only [dictInsert, if_neg h]
      simpa [getKey, h] using ih

theorem getKey_dictInsert_ne {α : Type} (m : List (String × α)) (k k' : String) (v : α)
    (h : k' ≠ k) : getKey (dictInsert m k v) k' = getKey m k' := by
  have hkk' : ¬ k = k' := fun e => h e.symm
  induction m with
  | nil => simp [dictInsert, getKey, hkk']
  | cons hd tl ih =>
    by_cases hk : hd.1 = k
    · have hk' : ¬ hd.1 = k' := fun e => h (Eq.trans e.symm hk)
      simp [dictInsert, hk, getKey, hk', hkk']
    · simp only [dictInsert, if_neg hk]
      by_cases hk' : hd.1 = k'
      · simp [getKey, hk']
      · simpa [getKey, hk'] using ih

theorem dictInsert_idem {α : Type} (m : List (String × α)) (k : String) (v : α) :
    dictInsert (dictInsert m k v) k v = dictInsert m k v := by
  induction m with
  | nil => simp [dictInsert]
  | cons hd tl ih =>
    by_cases h : hd.1 = k
    · simp [dictInsert, h]
    · simp only [dictInsert, if_neg h]
      rw [ih]

theorem getKey_append_left {α : Type} (m l : List (String × α)) (k : String) (v : α)
    (h : getKey m k = some v) : getKey (m ++ l) k = some v := by
  induction m with
  | nil => simp [getKey] at h
  | cons hd tl ih =>
    by_cases hk : hd.1 = k
    · simpa [getKey, hk] using h
    · simp only [getKey, if_neg hk] at h
      simpa [getKey, hk] using ih h

theorem getKey_append_of_none {α : Type} (m l : List (String × α)) (k : String)
    (h : getKey m k = none) : getKey (m ++ l) k = getKey l k := by
  induction m with
  | nil => simp
  | cons hd tl ih =>
    by_cases hk : hd.1 = k
    · simp [getKey, hk] at h
    · simp only [getKey, if_neg hk] at h
      simpa [getKey, hk] using ih h

theorem getKey_setdefault_absent {α : Type} (m : List (String × α)) (k : String) (v : α)
    (h : getKey m k = none) : getKey (setdefault m k v) k = some v := by
  unfold setdefault
  rw [h]
  simp only [Option.isSome_none, Bool.false_eq_true, if_false]
  rw [getKey_append_of_none m [(k, v)] k h]
  simp [getKey]

theorem setdefault_present {α : Type} (m : List (String × α)) (k : String) (v w : α)
    (h : getKey m k = some w) : setdefault m k v = m := by
  unfold setdefault
  rw [h]
  simp

theorem getKey_setdefault_of_some {α : Type} (m : List (String × α)) (k k' : String)
    (v w : α) (h : getKey m k' = some w) : getKey (setdefault m k v) k' = some w := by
  unfold setdefault
  by_cases hp : (getKey m k).isSome
  · simp [hp, h]
  · simp only [hp, if_false]
    exact getKey_append_left m [(k, v)] k' w h

/-! ### Claim C6 -/

/-- Claim C6 (confirmed): for every state document on disk — missing
file, or present-but-empty/unparseable content — `read_state` returns the
empty map. The embedding is a total function (the source wraps the read
in a bare try/except), so no exception reaches the caller. -/
theorem C6_read_state_total :
    read_state none = [] ∧ read_state (some none) = [] :=
  ⟨rfl, rfl⟩

/-! ### Claim C7 -/

/-- Claim C7 (confirmed): `update_state` merges only non-null entries
into the map read from disk and writes the whole map back (an update with
no effective entries preserves the readable map), it is idempotent for a
repeated identical key-value pair, and keys not mentioned by the update
are preserved. -/
theorem C7_update_state_merge_idempotent :
    (∀ d k v, update_state (update_state d [(k, some v)]) [(k, some v)]
        = update_state d [(k, some v)]) ∧
    (∀ m k, applyUpdates m [(k, none)] = m) ∧
    (∀ m k v k', k' ≠ k → getKey (applyUpdates m [(k, some v)]) k' = getKey m k') ∧
    (∀ m k v, getKey (applyUpdates m [(k, some v)]) k = some v) ∧
    (∀ d, read_state (update_state d []) = read_state d) := by
  refine ⟨?_, ?_, ?_, ?_, ?_⟩
  · intro d k v
    simp [update_state, applyUpdates, read_state, dictInsert_idem]
  · intro m k
    simp [applyUpdates]
  · intro m k v k' h
    simpa [applyUpdates] using getKey_dictInsert_ne m k k' v h
  · intro m k v
    simpa [applyUpdates] using getKey_dictInsert_self m k v
  · intro d
    simp [update_state, applyUpdates, read_state]

/-- Witness for C7: a concrete run of the third conjunct — updating key
`a` preserves the value stored under key `b`. -/
theorem C7_witness :
    getKey (applyUpdates [("b", "y")] [("a", some "x")]) "b" = some "y" :=
  C7_update_state_merge_idempotent.2.2.1 [("b", "y")] "a" "x" "b" (by decide)

/-! ### Resolution lemmas -/

theorem firstGood_some (fl : String → Bool) (l : List (Option String)) (s : String)
    (h : firstGood fl l = some s) : s ≠ "" ∧ fl s = true := by
  induction l with
  | nil => simp [firstGood] at h
  | cons c rest ih =>
    cases c with
    | none => exact ih (by simpa [firstGood] using h)
    | some t =>
      by_cases ht : t ≠ "" ∧ fl t = true
      · simp only [firstGood, if_pos ht] at h
        cases h
        exact ht
      · simp only [firstGood, if_neg ht] at h
        exact ih h

theorem firstGood_cons_none (fl : String → Bool) (l : List (Option String)) :
    firstGood fl (none :: l) = firstGood fl l := rfl

theorem firstGood_cons_bad (fl : String → Bool) (l : List (Option String)) (s : String)
    (h : s = "" ∨ fl s = false) : firstGood fl (some s :: l) = firstGood fl l := by
  have : ¬ (s ≠ "" ∧ fl s = true) := by
    rcases h with h | h
    · exact fun hc => hc.1 h
    · exact fun hc => by rw [h] at hc; exact absurd hc.2 (by simp)
  simp only [firstGood, if_neg this]

theorem firstGood_cons_hit (fl : String → Bool) (l : List (Option String)) (s : String)
    (h1 : s ≠ "") (h2 : fl s = true) : firstGood fl (some s :: l) = some s := by
  simp only [firstGood, if_pos (And.intro h1 h2)]

/-! ### Route step lemmas: the value of each route on each control path -/

theorem pfRoute_none (env : Env) (f : PFForm) (h : pfResolve env f = none) :
    pfRoute env f = (PFOutcome.noInput, env.stateDisk) := by
  unfold pfRoute
  rw [h]

theorem pfRoute_noParams (env : Env) (f : PFForm) (i : String)
    (h : pfResolve env f = some i) (hp : env.isfile f.params_path = false) :
    pfRoute env f = (PFOutcome.noParams, env.stateDisk) := by
  unfold pfRoute
  rw [h]
  dsimp only
  rw [if_pos (by simp [hp])]

theorem pfRoute_run (env : Env) (f : PFForm) (i : String)
    (h : pfResolve env f = some i) (hp : env.isfile f.params_path = true) :
    pfRoute env f =
      (PFOutcome.ran i (decide (env.exit "LipidFinder.run_peakfilter" (pfArgsOf f i) = 0)),
       pfRecord env f.output_dir i) := by
  unfold pfRoute
  rw [h]
  dsimp only
  rw [if_neg (by simp [hp])]

theorem amalRoute_missing1 (env : Env) (f : AmalForm)
    (h : truthyS (amalPair env f).1 = none) :
    amalRoute env f = (AmalOutcome.missingInputs, env.stateDisk) := by
  unfold amalRoute
  rw [h]

theorem amalRoute_missing2 (env : Env) (f : AmalForm) (n : String)
    (h1 : truthyS (amalPair env f).1 = some n)
    (h2 : truthyS (amalPair env f).2 = none) :
    amalRoute env f = (AmalOutcome.missingInputs, env.stateDisk) := by
  unfold amalRoute
  rw [h1, h2]

theorem amalRoute_noParams (env : Env) (f : AmalForm) (n p : String)
    (h1 : truthyS (amalPair env f).1 = some n)
    (h2 : truthyS (amalPair env f).2 = some p)
    (hp : env.isfile f.params_path = false) :
    amalRoute env f = (AmalOutcome.noParams, env.stateDisk) := by
  unfold amalRoute
  rw [h1, h2]
  dsimp only
  rw [if_pos (by simp [hp])]

theorem amalRoute_run (env : Env) (f : AmalForm) (n p : String)
    (h1 : truthyS (amalPair env f).1 = some n)
    (h2 : truthyS (amalPair env f).2 = some p)
    (hp : env.isfile f.params_path = true) :
    amalRoute env f =
      (AmalOutcome.ran n p
        (decide (env.exit "LipidFinder.run_amalgamator" (amalArgsOf f n p) = 0)),
       if decide (env.exit "LipidFinder.run_amalgamator" (amalArgsOf f n p) = 0)
           ∧ f.output_dir ≠ "" then
         update_state env.stateDisk
           [("amalgamator_last_csv", some (joinPath f.output_dir "amalgamated.csv"))]
       else env.stateDisk) := by
  unfold amalRoute
  rw [h1, h2]
  dsimp only
  rw [if_neg (by simp [hp])]

theorem msRoute_noneCase (env : Env) (f : MSForm) (h : msResolve env f = none) :
    msRoute env f = MSOutcome.noInput := by
  unfold msRoute
  rw [h]

theorem msRoute_emptyCase (env : Env) (f : MSForm) (h : msResolve env f = some "") :
    msRoute env f = MSOutcome.noInput := by
  unfold msRoute
  rw [h]
  dsimp only
  rw [if_pos rfl]

theorem msRoute_noParams (env : Env) (f : MSForm) (i : String)
    (h : msResolve env f = some i) (hi : i ≠ "")
    (hp : env.isfile f.params_path = false) :
    msRoute env f = MSOutcome.noParams := by
  unfold msRoute
  rw [h]
  dsimp only
  rw [if_neg hi, if_pos (by simp [hp])]

theorem msRoute_run (env : Env) (f : MSForm) (i : String)
    (h : msResolve env f = some i) (hi : i ≠ "")
    (hp : env.isfile f.params_path = true) :
    msRoute env f =
      MSOutcome.ran i (decide (env.exit "LipidFinder.run_mssearch" (msArgsOf f i) = 0)) := by
  unfold msRoute
  rw [h]
  dsimp only
  rw [if_neg hi, if_neg (by simp [hp])]

theorem xcmsRoute_noDir (env : Env) (f : XcmsForm) (h : f.mzxml_dir = "") :
    xcmsRoute env f = (XcmsOutcome.noDir, env.stateDisk) := by
  unfold xcmsRoute
  rw [if_pos h]

theorem xcmsRoute_launch (env : Env) (f : XcmsForm) (hd : f.mzxml_dir ≠ "")
    (hr : env.rscriptFound = false) :
    xcmsRoute env f = (XcmsOutcome.launchError, env.stateDisk) := by
  unfold xcmsRoute
  rw [if_neg hd, if_pos (by simp [hr])]

theorem xcmsRoute_fail (env : Env) (f : XcmsForm) (hd : f.mzxml_dir ≠ "")
    (hr : env.rscriptFound = true) (h : env.isfile (xcmsRp f) = false) :
    xcmsRoute env f = (XcmsOutcome.ran false, env.stateDisk) := by
  unfold xcmsRoute
  rw [if_neg hd, if_neg (by simp [hr]), if_neg (by simp [h])]

theorem xcmsRoute_ok (env : Env) (f : XcmsForm) (hd : f.mzxml_dir ≠ "")
    (hr : env.rscriptFound = true) (h : env.isfile (xcmsRp f) = true) :
    xcmsRoute env f = (XcmsOutcome.ran true, update_state env.stateDisk (xcmsKeys (xcmsRp f))) := by
  unfold xcmsRoute
  rw [if_neg hd, if_neg (by simp [hr]), if_pos (by simp [h])]

/-! ### Route-shape lemmas derived from the step lemmas -/

theorem pfRoute_state (env : Env) (f : PFForm) (i : String) (s : Bool)
    (h : (pfRoute env f).1 = PFOutcome.ran i s) :
    (pfRoute env f).2 = pfRecord env f.output_dir i := by
  cases hres : pfResolve env f with
  | none => rw [pfRoute_none env f hres] at h; simp at h
  | some input =>
    cases hp : env.isfile f.params_path with
    | false => rw [pfRoute_noParams env f input hres hp] at h; simp at h
    | true =>
      rw [pfRoute_run env f input hres hp] at h ⊢
      simp only [PFOutcome.ran.injEq] at h
      simp [h.1]

theorem pfRoute_abort_state (env : Env) (f : PFForm)
    (h : ∀ i s, (pfRoute env f).1 ≠ PFOutcome.ran i s) :
    (pfRoute env f).2 = env.stateDisk := by
  cases hres : pfResolve env f with
  | none => rw [pfRoute_none env f hres]
  | some input =>
    cases hp : env.isfile f.params_path with
    | false => rw [pfRoute_noParams env f input hres hp]
    | true =>
      exact absurd (by rw [pfRoute_run env f input hres hp]) (h input _)

theorem amalRoute_ran (env : Env) (f : AmalForm) (n p : String) (s : Bool)
    (h : (amalRoute env f).1 = AmalOutcome.ran n p s) :
    (amalRoute env f).2 =
      (if s ∧ f.output_dir ≠ "" then
        update_state env.stateDisk
          [("amalgamator_last_csv", some (joinPath f.output_dir "amalgamated.csv"))]
      else env.stateDisk) := by
  cases h1 : truthyS (amalPair env f).1 with
  | none => rw [amalRoute_missing1 env f h1] at h; simp at h
  | some n' =>
    cases h2 : truthyS (amalPair env f).2 with
    | none => rw [amalRoute_missing2 env f n' h1 h2] at h; simp at h
    | some p' =>
      cases hp : env.isfile f.params_path with
      | false => rw [amalRoute_noParams env f n' p' h1 h2 hp] at h; simp at h
      | true =>
        rw [amalRoute_run env f n' p' h1 h2 hp] at h ⊢
        simp only [AmalOutcome.ran.injEq] at h
        obtain ⟨hn, hpp, hs⟩ := h
        subst hn
        subst hpp
        simp only [hs]

/-! ### Claim C10 -/

/-- Claim C10 (confirmed): with an empty output-directory field a
standalone PeakFilter run leaves the state document untouched; when an
output directory is supplied, a PeakFilter run that reached the spawn
point merges exactly one summary key (`pfRecord`); a standalone
Amalgamator run records `amalgamator_last_csv` only when the subprocess
exited 0 AND an output directory was supplied. -/
theorem C10_standalone_output_dir_guard :
    (∀ env f, f.output_dir = "" → (pfRoute env f).2 = env.stateDisk) ∧
    (∀ env f i s, (pfRoute env f).1 = PFOutcome.ran i s → f.output_dir ≠ "" →
        (pfRoute env f).2 = pfRecord env f.output_dir i) ∧
    (∀ env od i, od ≠ "" →
        ∃ k v, pfRecord env od i = update_state env.stateDisk [(k, some v)]) ∧
    (∀ env f n p s, (amalRoute env f).1 = AmalOutcome.ran n p s →
        s = false ∨ f.output_dir = "" → (amalRoute env f).2 = env.stateDisk) ∧
    (∀ env f n p, (amalRoute env f).1 = AmalOutcome.ran n p true → f.output_dir ≠ "" →
        (amalRoute env f).2 = update_state env.stateDisk
          [("amalgamator_last_csv", some (joinPath f.output_dir "amalgamated.csv"))]) := by
  refine ⟨?_, ?_, ?_, ?_, ?_⟩
  · intro env f hod
    by_cases hran : ∃ i s, (pfRoute env f).1 = PFOutcome.ran i s
    · obtain ⟨i, s, hr⟩ := hran
      rw [pfRoute_state env f i s hr]
      simp [pfRecord, hod]
    · exact pfRoute_abort_state env f (by
        intro i s hc
        exact hran ⟨i, s, hc⟩)
  · intro env f i s h _
    exact pfRoute_state env f i s h
  · intro env od i hod
    unfold pfRecord
    rw [if_pos hod]
    cases inferPolarity (pathName i) with
    | Negative =>
      exact ⟨"peakfilter_last_negative_summary",
        joinPath od "peakfilter_negative_summary.csv", rfl⟩
    | Positive =>
      exact ⟨"peakfilter_last_positive_summary",
        joinPath od "peakfilter_positive_summary.csv", rfl⟩
    | Unknown =>
      exact ⟨"peakfilter_last_summary", joinPath od "peakfilter_summary.csv", rfl⟩
  · intro env f n p s h hcase
    rw [amalRoute_ran env f n p s h]
    rcases hcase with h' | h' <;> simp [h']
  · intro env f n p h hod
    rw [amalRoute_ran env f n p true h]
    simp [hod]

/-- Witness for C10: a concrete standalone PeakFilter run with an empty
output-directory field leaves the (empty-map) state document unchanged. -/
theorem C10_witness :
    (pfRoute envFail formPF0).2 = envFail.stateDisk :=
  C10_standalone_output_dir_guard.1 envFail formPF0 rfl

/-! ### Claim C5 -/

/-- Claim C5 (corrected) — counterexample: a standalone PeakFilter run
whose subprocess exits 1 (`envFail.exit` is constantly 1) still merges
`peakfilter_last_negative_summary` into the persisted state document,
which therefore differs after the failing run. This falsifies "for every
stage run that fails ... the persisted state document is left unchanged". -/
theorem C5_counterexample :
    pfRoute envFail formPF =
      (PFOutcome.ran "neg.csv" false,
       some (some [("peakfilter_last_negative_summary",
                    "/out/peakfilter_negative_summary.csv")])) ∧
    (pfRoute envFail formPF).2 ≠ envFail.stateDisk := by
  constructor
  · decide
  · decide

/-- Claim C5 (corrected, amended): the Run State Store is updated only
after success for the amalgamation stage (exit code 0) and for the
alignment stage (produced file exists; launch failures also leave it
unchanged) — but the standalone PeakFilter route merges its polarity
summary key according to `pfRecord`, i.e. whenever an output directory
was supplied, regardless of the subprocess exit code. -/
theorem C5_state_update_only_on_success_amended :
    (∀ env f n p, (amalRoute env f).1 = AmalOutcome.ran n p false →
        (amalRoute env f).2 = env.stateDisk) ∧
    (∀ env f, (xcmsRoute env f).1 = XcmsOutcome.ran false →
        (xcmsRoute env f).2 = env.stateDisk) ∧
    (∀ env f, (xcmsRoute env f).1 = XcmsOutcome.launchError →
        (xcmsRoute env f).2 = env.stateDisk) ∧
    (∀ env f i s, (pfRoute env f).1 = PFOutcome.ran i s →
        (pfRoute env f).2 = pfRecord env f.output_dir i) := by
  refine ⟨?_, ?_, ?_, ?_⟩
  · intro env f n p h
    rw [amalRoute_ran env f n p false h]
    simp
  · intro env f h
    by_cases hd : f.mzxml_dir = ""
    · rw [xcmsRoute_noDir env f hd]
    · cases hr : env.rscriptFound with
      | false => rw [xcmsRoute_launch env f hd hr]
      | true =>
        cases hfile : env.isfile (xcmsRp f) with
        | false => rw [xcmsRoute_fail env f hd hr hfile]
        | true => rw [xcmsRoute_ok env f hd hr hfile] at h; simp at h
  · intro env f h
    by_cases hd : f.mzxml_dir = ""
    · rw [xcmsRoute_noDir env f hd]
    · cases hr : env.rscriptFound with
      | false => rw [xcmsRoute_launch env f hd hr]
      | true =>
        cases hfile : env.isfile (xcmsRp f) with
        | false => rw [xcmsRoute_fail env f hd hr hfile] at h; simp at h
        | true => rw [xcmsRoute_ok env f hd hr hfile] at h; simp at h
  · intro env f i s h
    exact pfRoute_state env f i s h

/-- Witness for C5: a concrete failing Amalgamator run (exit code 1)
leaves the persisted state document unchanged. -/
theorem C5_witness :
    (amalRoute envFail formAm).2 = envFail.stateDisk :=
  C5_state_update_only_on_success_amended.1 envFail formAm "/n.csv" "/p.csv" (by decide)

/-! ### Claim C2 -/

/-- Claim C2 (corrected) — counterexample: with no explicit input, the
search route selects `amalgamator_last_csv = "/gone.csv"` although that
file does not exist, while the next candidate
`peakfilter_last_negative_summary = "/have.csv"` does exist. This
falsifies "selects the first candidate whose value is non-empty AND whose
referenced file currently exists on disk ... the first existing file
winning" for the search stage. -/
theorem C2_counterexample :
    msRoute env2 form2 = MSOutcome.ran "/gone.csv" true ∧
    env2.isfile "/gone.csv" = false ∧
    env2.isfile "/have.csv" = true ∧
    getKey (read_state env2.stateDisk) "peakfilter_last_negative_summary"
      = some "/have.csv" := by
  refine ⟨by decide, by decide, by decide, by decide⟩

/-- Claim C2 (corrected, amended): the filter stage's auto-resolution
walks its ordered candidate list and selects the first candidate that is
non-empty AND refers to an existing file, failing with a missing-input
abort (no subprocess) when none qualifies; the search stage instead takes
the first non-empty candidate of its ordered key list with NO
file-existence check, failing before spawning only when every candidate
is empty; the amalgamation stage aborts (no subprocess) when a polarity
summary is missing from both the form and the state store. -/
theorem C2_resolution_amended :
    (∀ fl l s, firstGood fl l = some s → s ≠ "" ∧ fl s = true) ∧
    (∀ fl l s, (s = "" ∨ fl s = false) → firstGood fl (some s :: l) = firstGood fl l) ∧
    (∀ fl l s, s ≠ "" → fl s = true → firstGood fl (some s :: l) = some s) ∧
    (∀ env f i s, (pfRoute env f).1 = PFOutcome.ran i s → f.input_path = "" →
        i ≠ "" ∧ env.isfile i = true) ∧
    (∀ env f, f.input_path = "" → read_state env.stateDisk = [] →
        pfRoute env f = (PFOutcome.noInput, env.stateDisk)) ∧
    (∀ env f a, f.input_file = "" →
        getKey (read_state env.stateDisk) "amalgamator_last_csv" = some a → a ≠ "" →
        msResolve env f = some a) ∧
    (∀ env f a, msResolve env f = some a → a ≠ "" → env.isfile f.params_path = true →
        msRoute env f = MSOutcome.ran a
          (decide (env.exit "LipidFinder.run_mssearch" (msArgsOf f a) = 0))) ∧
    (∀ env f, f.input_file = "" → read_state env.stateDisk = [] →
        msRoute env f = MSOutcome.noInput) ∧
    (∀ env f, f.neg_file = "" →
        getKey (read_state env.stateDisk) "peakfilter_last_negative_summary" = none →
        amalRoute env f = (AmalOutcome.missingInputs, env.stateDisk)) := by
  refine ⟨firstGood_some, ?_, firstGood_cons_hit, ?_, ?_, ?_, ?_, ?_, ?_⟩
  · intro fl l s h
    exact firstGood_cons_bad fl l s h
  · intro env f i s h hin
    cases hres : pfResolve env f with
    | none => rw [pfRoute_none env f hres] at h; simp at h
    | some input =>
      cases hp : env.isfile f.params_path with
      | false => rw [pfRoute_noParams env f input hres hp] at h; simp at h
      | true =>
        rw [pfRoute_run env f input hres hp] at h
        simp only [PFOutcome.ran.injEq] at h
        rw [h.1] at hres
        unfold pfResolve at hres
        rw [if_neg (by simp [hin])] at hres
        exact firstGood_some env.isfile _ i hres
  · intro env f hin hst
    have hres : pfResolve env f = none := by
      unfold pfResolve
      rw [if_neg (by simp [hin]), hst]
      simp [getKey, firstGood]
    exact pfRoute_none env f hres
  · intro env f a hin hget ha
    unfold msResolve
    rw [if_neg (by simp [hin]), hget]
    simp [pyOrO, ha]
  · intro env f a h ha hp
    exact msRoute_run env f a h ha hp
  · intro env f hin hst
    have hres : msResolve env f = none := by
      unfold msResolve
      rw [if_neg (by simp [hin]), hst]
      simp [getKey, pyOrO]
    exact msRoute_noneCase env f hres
  · intro env f h1 h2
    have : truthyS (amalPair env f).1 = none := by
      unfold amalPair
      rw [if_neg (by simp [h1])]
      simp [pyOrSO, h1, h2, truthyS]
    exact amalRoute_missing1 env f this

/-- Witness for C2: the concrete resolution of the counterexample
environment, derived from the amended theorem's search-stage clause —
the first non-empty candidate wins although its file is gone. -/
theorem C2_witness :
    msResolve env2 form2 = some "/gone.csv" :=
  C2_resolution_amended.2.2.2.2.2.1 env2 form2 "/gone.csv" rfl (by decide) (by decide)

/-! ### Pipeline invariant lemmas -/

theorem searchInv (env : Env) (f : PipeForm) (logs : List LogEntry)
    (negS posS amal : Option String)
    (hall : logs.all (fun e => e.success) = true) :
    ranInvariant (pipelineSearch env f logs negS posS amal) := by
  intro s log w h
  unfold pipelineSearch at h
  injection h with hs hl hw
  subst hs
  subst hl
  refine ⟨?_, ?_, by simp⟩
  · simp [List.all_append, hall]
  · simp [hall]

theorem amalInv (env : Env) (f : PipeForm) (logs : List LogEntry)
    (negS posS : Option String)
    (hall : logs.all (fun e => e.success) = true) :
    ranInvariant (pipelineAmal env f logs negS posS) := by
  cases negS with
  | none =>
    cases posS with
    | none => exact searchInv env f logs none none none hall
    | some ps => exact searchInv env f logs none (some ps) none hall
  | some ns =>
    cases posS with
    | none => exact searchInv env f logs (some ns) none none hall
    | some ps =>
      unfold pipelineAmal
      dsimp only
      by_cases hok : (amalEntry env f ns ps).success = true
      · rw [if_pos hok]
        exact searchInv env f (logs ++ [amalEntry env f ns ps]) (some ns) (some ps) _
          (by simp [List.all_append, hall, hok])
      · rw [if_neg hok]
        intro s log w h
        injection h with hs hl hw
        subst hs
        subst hl
        have hfalse : (amalEntry env f ns ps).success = false := by
          cases hcc : (amalEntry env f ns ps).success
          · rfl
          · exact absurd hcc hok
        exact ⟨by simp [List.all_append, hall, hfalse], by simp [hall], by simp⟩

theorem posInv (env : Env) (f : PipeForm) (pos : String) (logs : List LogEntry)
    (negS : Option String)
    (hall : logs.all (fun e => e.success) = true) :
    ranInvariant (pipelinePos env f pos logs negS) := by
  unfold pipelinePos
  by_cases hpos : pos = ""
  · rw [if_pos hpos]
    exact amalInv env f logs negS none hall
  · rw [if_neg hpos]
    by_cases hok : (posEntry env f pos).success = true
    · rw [if_pos hok]
      exact amalInv env f (logs ++ [posEntry env f pos]) negS _
        (by simp [List.all_append, hall, hok])
    · rw [if_neg hok]
      intro s log w h
      injection h with hs hl hw
      subst hs
      subst hl
      have hfalse : (posEntry env f pos).success = false := by
        cases hcc : (posEntry env f pos).success
        · rfl
        · exact absurd hcc hok
      exact ⟨by simp [List.all_append, hall, hfalse], by simp [hall], by simp⟩

theorem negInv (env : Env) (f : PipeForm) (neg pos : String) :
    ranInvariant (pipelineNeg env f neg pos) := by
  unfold pipelineNeg
  by_cases hneg : neg = ""
  · rw [if_pos hneg]
    exact posInv env f pos [] none rfl
  · rw [if_neg hneg]
    by_cases hok : (negEntry env f neg).success = true
    · rw [if_pos hok]
      exact posInv env f pos [negEntry env f neg] _ (by simp [hok])
    · rw [if_neg hok]
      intro s log w h
      injection h with hs hl hw
      subst hs
      subst hl
      have hfalse : (negEntry env f neg).success = false := by
        cases hcc : (negEntry env f neg).success
        · rfl
        · exact absurd hcc hok
      exact ⟨by simp [hfalse], by simp, by simp⟩

theorem afterResolveInv (env : Env) (f : PipeForm) (neg pos : String) :
    ranInvariant (pipelineAfterResolve env f neg pos) := by
  unfold pipelineAfterResolve
  by_cases hm : pipelineMissing env neg pos = []
  · rw [if_pos hm]
    exact negInv env f neg pos
  · rw [if_neg hm]
    intro s log w h
    cases h

theorem pipelineRanInv (env : Env) (f : PipeForm) :
    ranInvariant (run_pipeline_full env f) := by
  unfold run_pipeline_full
  by_cases hod : f.output_dir = ""
  · rw [if_pos hod]
    intro s log w h
    cases h
  · rw [if_neg hod]
    by_cases hin : f.neg_input = "" ∧ f.pos_input = ""
    · rw [if_pos hin]
      rcases hres : resolveTopInputs (read_state env.stateDisk) env.isfile with ⟨n, p⟩
      dsimp only
      by_cases hnp : n = "" ∧ p = ""
      · rw [if_pos hnp]
        intro s log w h
        cases h
      · rw [if_neg hnp]
        exact afterResolveInv env f n p
    · rw [if_neg hin]
      exact afterResolveInv env f f.neg_input f.pos_input

theorem searchWritesInv (env : Env) (f : PipeForm) (logs : List LogEntry)
    (negS posS amal : Option String) :
    writesInvariant env (pipelineSearch env f logs negS posS amal) := by
  intro s log w h
  unfold pipelineSearch at h
  injection h with hs hl hw
  exact Or.inr hw.symm

theorem amalWritesInv (env : Env) (f : PipeForm) (logs : List LogEntry)
    (negS posS : Option String) :
    writesInvariant env (pipelineAmal env f logs negS posS) := by
  cases negS with
  | none =>
    cases posS with
    | none => exact searchWritesInv env f logs none none none
    | some ps => exact searchWritesInv env f logs none (some ps) none
  | some ns =>
    cases posS with
    | none => exact searchWritesInv env f logs (some ns) none none
    | some ps =>
      unfold pipelineAmal
      dsimp only
      by_cases hok : (amalEntry env f ns ps).success = true
      · rw [if_pos hok]
        exact searchWritesInv env f _ (some ns) (some ps) _
      · rw [if_neg hok]
        intro s log w h
        injection h with hs hl hw
        exact Or.inl hw.symm

theorem posWritesInv (env : Env) (f : PipeForm) (pos : String) (logs : List LogEntry)
    (negS : Option String) :
    writesInvariant env (pipelinePos env f pos logs negS) := by
  unfold pipelinePos
  by_cases hpos : pos = ""
  · rw [if_pos hpos]
    exact amalWritesInv env f logs negS none
  · rw [if_neg hpos]
    by_cases hok : (posEntry env f pos).success = true
    · rw [if_pos hok]
      exact amalWritesInv env f _ negS _
    · rw [if_neg hok]
      intro s log w h
      injection h with hs hl hw
      exact Or.inl hw.symm

theorem negWritesInv (env : Env) (f : PipeForm) (neg pos : String) :
    writesInvariant env (pipelineNeg env f neg pos) := by
  unfold pipelineNeg
  by_cases hneg : neg = ""
  · rw [if_pos hneg]
    exact posWritesInv env f pos [] none
  · rw [if_neg hneg]
    by_cases hok : (negEntry env f neg).success = true
    · rw [if_pos hok]
      exact posWritesInv env f pos _ _
    · rw [if_neg hok]
      intro s log w h
      injection h with hs hl hw
      exact Or.inl hw.symm

theorem pipelineWritesInv (env : Env) (f : PipeForm) :
    writesInvariant env (run_pipeline_full env f) := by
  unfold run_pipeline_full
  by_cases hod : f.output_dir = ""
  · rw [if_pos hod]
    intro s log w h
    cases h
  · rw [if_neg hod]
    by_cases hin : f.neg_input = "" ∧ f.pos_input = ""
    · rw [if_pos hin]
      rcases hres : resolveTopInputs (read_state env.stateDisk) env.isfile with ⟨n, p⟩
      dsimp only
      by_cases hnp : n = "" ∧ p = ""
      · rw [if_pos hnp]
        intro s log w h
        cases h
      · rw [if_neg hnp]
        unfold pipelineAfterResolve
        by_cases hm : pipelineMissing env n p = []
        · rw [if_pos hm]
          exact negWritesInv env f n p
        · rw [if_neg hm]
          intro s log w h
          cases h
    · rw [if_neg hin]
      unfold pipelineAfterResolve
      by_cases hm : pipelineMissing env f.neg_input f.pos_input = []
      · rw [if_pos hm]
        exact negWritesInv env f f.neg_input f.pos_input
      · rw [if_neg hm]
        intro s log w h
        cases h

/-! ### Claim C3 -/

/-- Claim C3 (confirmed): whenever the full pipeline returns an
execution log, the overall success flag is the logical AND of the
attempted stages' successes, every entry before the last succeeded
(so the first failing stage, if any, is the last entry and no later
stage was attempted), and at least one stage ran; in particular, when
the negative-branch filter fails, the run returns a one-entry log —
the positive-branch filter is never invoked. -/
theorem C3_stage_failure_terminal :
    (∀ env f s log w, run_pipeline_full env f = Outcome.ran s log w →
        s = log.all (fun e => e.success)
          ∧ log.dropLast.all (fun e => e.success) = true
          ∧ log ≠ []) ∧
    (∀ env f, f.output_dir ≠ "" → f.neg_input ≠ "" →
        pipelineMissing env f.neg_input f.pos_input = [] →
        (negEntry env f f.neg_input).success = false →
        run_pipeline_full env f = Outcome.ran false [negEntry env f f.neg_input] []) := by
  constructor
  · intro env f s log w h
    exact pipelineRanInv env f s log w h
  · intro env f hod hneg hmiss hfail
    unfold run_pipeline_full
    rw [if_neg hod, if_neg (fun hc => hneg hc.1)]
    unfold pipelineAfterResolve
    rw [if_pos hmiss]
    unfold pipelineNeg
    rw [if_neg hneg, if_neg (by simp [hfail])]

/-- Witness for C3: with every subprocess exiting 1, the full pipeline
on explicit inputs returns a single-entry log — the failed negative
filter — and overall failure. -/
theorem C3_witness :
    run_pipeline_full envFail formA
      = Outcome.ran false [negEntry envFail formA "/data/neg.csv"] [] :=
  C3_stage_failure_terminal.2 envFail formA (by decide) (by decide) (by decide) (by decide)

/-! ### Claim C4 -/

/-- Claim C4 (confirmed): an empty output directory aborts the full
pipeline with a configuration error before anything else; once inputs
are known, any missing stage parameter file aborts with the combined
list of missing stage names — PeakFilter is listed when a polarity
input exists and its file is missing, Amalgamator and MSSearch are
checked unconditionally (even when amalgamation would be skipped) —
and in both abort cases zero stage subprocesses are spawned. -/
theorem C4_preflight_aborts :
    (∀ env f, f.output_dir = "" → run_pipeline_full env f = Outcome.configError) ∧
    (∀ env f, f.output_dir ≠ "" → ¬(f.neg_input = "" ∧ f.pos_input = "") →
        pipelineMissing env f.neg_input f.pos_input ≠ [] →
        run_pipeline_full env f
          = Outcome.missingParams (pipelineMissing env f.neg_input f.pos_input)) ∧
    (∀ env n p, env.isfile amalParamsPath = false → "Amalgamator" ∈ pipelineMissing env n p) ∧
    (∀ env n p, env.isfile msParamsPath = false → "MSSearch" ∈ pipelineMissing env n p) ∧
    (∀ env n p, (n ≠ "" ∨ p ≠ "") → env.isfile pfParamsPath = false →
        "PeakFilter" ∈ pipelineMissing env n p) ∧
    (∀ env f, f.output_dir = "" → spawnCount (run_pipeline_full env f) = 0) ∧
    (∀ env f, f.output_dir ≠ "" → ¬(f.neg_input = "" ∧ f.pos_input = "") →
        pipelineMissing env f.neg_input f.pos_input ≠ [] →
        spawnCount (run_pipeline_full env f) = 0) := by
  refine ⟨?_, ?_, ?_, ?_, ?_, ?_, ?_⟩
  · intro env f h
    unfold run_pipeline_full
    rw [if_pos h]
  · intro env f hod hin hm
    unfold run_pipeline_full
    rw [if_neg hod, if_neg hin]
    unfold pipelineAfterResolve
    rw [if_neg hm]
  · intro env n p ha
    simp [pipelineMissing, ha]
  · intro env n p hm
    simp [pipelineMissing, hm]
  · intro env n p h1 h2
    unfold pipelineMissing
    rw [if_pos (And.intro h1 h2)]
    simp
  · intro env f h
    unfold run_pipeline_full
    rw [if_pos h]
    rfl
  · intro env f hod hin hm
    unfold run_pipeline_full
    rw [if_neg hod, if_neg hin]
    unfold pipelineAfterResolve
    rw [if_neg hm]
    rfl

/-- Witness for C4: with only the Amalgamator parameter file missing and
explicit inputs, the full pipeline aborts naming exactly that stage and
spawns nothing. -/
theorem C4_witness :
    run_pipeline_full envMiss formA = Outcome.missingParams ["Amalgamator"]
      ∧ spawnCount (run_pipeline_full envMiss formA) = 0 :=
  ⟨(C4_preflight_aborts.2.1 envMiss formA (by decide) (by decide) (by decide)).trans
      (by decide),
   C4_preflight_aborts.2.2.2.2.2.2 envMiss formA (by decide) (by decide) (by decide)⟩

/-! ### Claim C1 -/

/-- Claim C1 (corrected) — counterexample: end-to-end scenario A with no
prior RunState (`envA.stateDisk = none`), explicit inputs, all stages
succeeding. The run returns a full four-entry successful log, but its
only file write is the MSSearch overlay file — not the state document —
so the Run State Store afterwards still contains no `amalgamator_last_csv`
(nor any filter summary key). This falsifies "each successful stage's
output location is recorded into the Run State Store" for
`run_pipeline_full`. -/
theorem C1_counterexample :
    run_pipeline_full envA formA = Outcome.ran true logA (pipelineWrites envA) ∧
    (pipelineWrites envA).map Prod.fst = [tmpMsParamsPath] ∧
    tmpMsParamsPath ≠ statePath ∧
    getKey (read_state envA.stateDisk) "amalgamator_last_csv" = none := by
  refine ⟨by decide, by decide, by decide, rfl⟩

/-- Claim C1 (corrected, amended): `run_pipeline_full` records nothing in
the Run State Store (its only file write is the overlay file, whose path
differs from the state document's); the keys the claim names are instead
recorded by the standalone routes — `amalgamator_last_csv`, pointing at
`<outdir>/amalgamated.csv`, by a successful Amalgamator run with an
output directory, and `peakfilter_last_negative_summary` by a standalone
PeakFilter run on a negative-named input with an output directory. -/
theorem C1_recording_amended :
    (∀ env f s log w, run_pipeline_full env f = Outcome.ran s log w →
        w = [] ∨ w = pipelineWrites env) ∧
    (∀ env, (pipelineWrites env).map Prod.fst = [tmpMsParamsPath]) ∧
    tmpMsParamsPath ≠ statePath ∧
    (∀ env f n p, (amalRoute env f).1 = AmalOutcome.ran n p true → f.output_dir ≠ "" →
        (amalRoute env f).2 = update_state env.stateDisk
          [("amalgamator_last_csv", some (joinPath f.output_dir "amalgamated.csv"))]) ∧
    (∀ env f i s, (pfRoute env f).1 = PFOutcome.ran i s → f.output_dir ≠ "" →
        inferPolarity (pathName i) = Polarity.Negative →
        (pfRoute env f).2 = update_state env.stateDisk
          [("peakfilter_last_negative_summary",
            some (joinPath f.output_dir "peakfilter_negative_summary.csv"))]) := by
  refine ⟨?_, ?_, by decide, ?_, ?_⟩
  · intro env f s log w h
    exact pipelineWritesInv env f s log w h
  · intro env
    rfl
  · intro env f n p h hod
    rw [amalRoute_ran env f n p true h]
    simp [hod]
  · intro env f i s h hod hpol
    rw [pfRoute_state env f i s h]
    unfold pfRecord
    rw [if_pos hod, hpol]

/-- Witness for C1: a concrete successful standalone Amalgamator run
records `amalgamator_last_csv` pointing at `/out/amalgamated.csv`. -/
theorem C1_witness :
    (amalRoute envA formAm).2 = update_state envA.stateDisk
      [("amalgamator_last_csv", some (joinPath "/out" "amalgamated.csv"))] :=
  C1_recording_amended.2.2.2.1 envA formAm "/n.csv" "/p.csv" (by decide) (by decide)

/-! ### Claim C8 -/

theorem getKey_setdefault_none_ne {α : Type} (m : List (String × α)) (k k' : String)
    (v : α) (hk : ¬ k = k') (h : getKey m k' = none) :
    getKey (setdefault m k v) k' = none := by
  unfold setdefault
  by_cases hp : (getKey m k).isSome
  · simp [hp, h]
  · rw [if_neg hp]
    rw [getKey_append_of_none m [(k, v)] k' h]
    simp [getKey, hk]

/-- Claim C8 (corrected) — counterexample: a full pipeline run whose
saved `mssearch.json` contains `plotCategories = false` writes an
overlay in which `plotCategories` is still `false`: the two presentation
flags are applied with `setdefault`, which fills only absent keys, so
"category plotting on" does not hold for this run. (`figFormat` is
forced, and the persisted file is untouched — those parts stand.) -/
theorem C8_counterexample :
    run_pipeline_full env8 formA = Outcome.ran true logA (pipelineWrites env8) ∧
    pipelineWrites env8 = [(tmpMsParamsPath,
      [("plotCategories", PVal.bool false), ("summary", PVal.bool true),
       ("figFormat", PVal.str "png")])] ∧
    getKey (msOverlay [("plotCategories", PVal.bool false)]) "plotCategories"
      = some (PVal.bool false) := by
  refine ⟨by decide, by decide, by decide⟩

/-- Claim C8 (corrected, amended): before the search stage the saved
search parameters are cloned into a separate overlay file (the only file
the pipeline writes, and its path differs from the persisted
`mssearch.json`, which is therefore not modified); in the overlay the
chart format is forced to png, while category plotting and summary are
`setdefault`s: turned on only when absent from the saved set, and
preserved verbatim when present. -/
theorem C8_overlay_amended :
    (∀ env f s log w, run_pipeline_full env f = Outcome.ran s log w →
        ∀ pc ∈ w, pc.1 = tmpMsParamsPath
          ∧ pc.2 = msOverlay (env.msParamsDisk.getD [])) ∧
    tmpMsParamsPath ≠ msParamsPath ∧
    (∀ doc, getKey (msOverlay doc) "figFormat" = some (PVal.str "png")) ∧
    (∀ doc, getKey doc "plotCategories" = none →
        getKey (msOverlay doc) "plotCategories" = some (PVal.bool true)) ∧
    (∀ doc v, getKey doc "plotCategories" = some v →
        getKey (msOverlay doc) "plotCategories" = some v) ∧
    (∀ doc, getKey doc "summary" = none →
        getKey (msOverlay doc) "summary" = some (PVal.bool true)) ∧
    (∀ doc v, getKey doc "summary" = some v →
        getKey (msOverlay doc) "summary" = some v) := by
  refine ⟨?_, by decide, ?_, ?_, ?_, ?_, ?_⟩
  · intro env f s log w h pc hpc
    rcases pipelineWritesInv env f s log w h with hw | hw
    · rw [hw] at hpc
      simp at hpc
    · rw [hw] at hpc
      simp only [pipelineWrites, List.mem_singleton] at hpc
      rw [hpc]
      exact ⟨rfl, rfl⟩
  · intro doc
    exact getKey_dictInsert_self _ _ _
  · intro doc h
    unfold msOverlay
    rw [getKey_dictInsert_ne _ _ _ _ (by decide)]
    exact getKey_setdefault_of_some _ _ _ _ _ (getKey_setdefault_absent doc _ _ h)
  · intro doc v h
    unfold msOverlay
    rw [getKey_dictInsert_ne _ _ _ _ (by decide)]
    exact getKey_setdefault_of_some _ _ _ _ _ (getKey_setdefault_of_some _ _ _ _ _ h)
  · intro doc h
    unfold msOverlay
    rw [getKey_dictInsert_ne _ _ _ _ (by decide)]
    exact getKey_setdefault_absent _ _ _
      (getKey_setdefault_none_ne doc _ _ _ (by decide) h)
  · intro doc v h
    unfold msOverlay
    rw [getKey_dictInsert_ne _ _ _ _ (by decide)]
    have hX : getKey (setdefault doc "plotCategories" (PVal.bool true)) "summary" = some v :=
      getKey_setdefault_of_some _ _ _ _ _ h
    rw [setdefault_present _ _ _ _ hX]
    exact hX

/-- Witness for C8: on an empty saved parameter set, the overlay turns
category plotting on. -/
theorem C8_witness :
    getKey (msOverlay []) "plotCategories" = some (PVal.bool true) :=
  C8_overlay_amended.2.2.2.1 [] rfl

/-! ### Claim C9 -/

theorem resolveTop_generic_unknown (st : StateDoc) (fl : String → Bool) (g : String)
    (h1 : getKey st "xcms_last_negative_csv" = none)
    (h2 : getKey st "xcms_last_positive_csv" = none)
    (h3 : getKey st "xcms_last_csv" = some g) (hg : g ≠ "") (hfl : fl g = true)
    (hpol : inferPolarity (pathName g) = Polarity.Unknown) :
    resolveTopInputs st fl = (g, "") := by
  simp [resolveTopInputs, pyOr, h1, h2, h3, hg, hfl, hpol]

/-- Claim C9 (confirmed): polarity inference matches `neg`/`negative`
before `pos`/`positive` (any name whose lowering contains `neg` is
Negative, whatever else it contains); top-level pipeline auto-resolution
prefers the polarity-specific state entries (a present non-empty
negative entry is taken, and with only a positive entry the generic key
is never consulted); and a polarity-indeterminate generic alignment
output is assigned to the negative branch of `run_pipeline_full`. -/
theorem C9_polarity_inference :
    (∀ s, strContains (strLower s) "neg" = true → inferPolarity s = Polarity.Negative) ∧
    (∀ st fl n, getKey st "xcms_last_negative_csv" = some n → n ≠ "" →
        (resolveTopInputs st fl).1 = n) ∧
    (∀ st fl p, getKey st "xcms_last_negative_csv" = none →
        getKey st "xcms_last_positive_csv" = some p → p ≠ "" →
        resolveTopInputs st fl = ("", p)) ∧
    (∀ st fl g, getKey st "xcms_last_negative_csv" = none →
        getKey st "xcms_last_positive_csv" = none →
        getKey st "xcms_last_csv" = some g → g ≠ "" → fl g = true →
        inferPolarity (pathName g) = Polarity.Unknown →
        resolveTopInputs st fl = (g, "")) ∧
    (∀ env f g, f.neg_input = "" → f.pos_input = "" → f.output_dir ≠ "" →
        getKey (read_state env.stateDisk) "xcms_last_negative_csv" = none →
        getKey (read_state env.stateDisk) "xcms_last_positive_csv" = none →
        getKey (read_state env.stateDisk) "xcms_last_csv" = some g → g ≠ "" →
        env.isfile g = true →
        inferPolarity (pathName g) = Polarity.Unknown →
        run_pipeline_full env f = pipelineAfterResolve env f g "") := by
  refine ⟨?_, ?_, ?_, ?_, ?_⟩
  · intro s h
    simp [inferPolarity, h]
  · intro st fl n hget hn
    simp [resolveTopInputs, pyOr, hget, hn]
  · intro st fl p h1 h2 hp
    simp [resolveTopInputs, pyOr, h1, h2, hp]
  · intro st fl g h1 h2 h3 hg hfl hpol
    exact resolveTop_generic_unknown st fl g h1 h2 h3 hg hfl hpol
  · intro env f g h1 h2 hod hgn hgp hgg hg hfl hpol
    unfold run_pipeline_full
    rw [if_neg hod, if_pos (And.intro h1 h2),
      resolveTop_generic_unknown _ _ g hgn hgp hgg hg hfl hpol]
    dsimp only
    rw [if_neg (fun hc => hg hc.1)]

/-- Witness for C9: with only a polarity-indeterminate
`xcms_last_csv = "/d/sample.csv"` in the state store and no explicit
inputs, the full pipeline resolves it into the negative branch. -/
theorem C9_witness :
    run_pipeline_full envU formU = pipelineAfterResolve envU formU "/d/sample.csv" "" :=
  C9_polarity_inference.2.2.2.2 envU formU "/d/sample.csv" rfl rfl (by decide)
    (by decide) (by decide) (by decide) (by decide) (by decide) (by decide)

end LFW
